import Mathlib

/-!
Verification development for the audio-transcription pipeline
(`whispers2t.py`, `src/audio_recorder.py`, `src/transcription_service.py`).

The Python modules are shallowly embedded: each frame of the rolling audio
buffer is abstracted by its sample count (the code stores raw PCM byte
chunks and only ever measures them in `CHUNK`-sized units), external side
effects (ffmpeg invocations, the transcription engine) are parameters
describing their observable outcome, and stateful methods become pure
functions on an explicit state record.
-/

/-- Audio settings from whispers2t.py (module constants). -/
def CHUNK : Nat := 4096

def CHANNELS : Nat := 1

def TARGET_SAMPLE_RATE : Nat := 16000

def MAX_BUFFER_SECONDS : Nat := 30

def WINDOW_SIZE_SECONDS : Nat := 15

/-- A buffered audio frame, abstracted by its sample count.  The capture
stream is opened with `frames_per_buffer=CHUNK`, so every frame the
callback pushes carries `CHUNK` samples. -/
abbrev Frame := Nat

/-- `TranscriptionHistory` from whispers2t.py (lines 36-58). -/
structure TranscriptionHistory where
  history : List String
  max_history : Nat
deriving DecidableEq

/-- `TranscriptionHistory.add` (whispers2t.py lines 41-50): `None` and the
empty string are rejected by `if not text`; a text equal to the last entry
is skipped; otherwise the text is appended and at most one oldest entry is
popped when `max_history` is exceeded. -/
def TranscriptionHistory.add (h : TranscriptionHistory) (text : Option String) :
    TranscriptionHistory :=
  match text with
  | none => h
  | some t =>
    if t = "" then h
    else if h.history = [] ∨ h.history.getLast? ≠ some t then
      { h with history :=
          if h.max_history < (h.history ++ [t]).length then (h.history ++ [t]).drop 1
          else h.history ++ [t] }
    else h

/-- `TranscriptionHistory.get_prompt` (whispers2t.py lines 52-58): the most
recent entry, or `none` when the history is empty. -/
def TranscriptionHistory.get_prompt (h : TranscriptionHistory) : Option String :=
  h.history.getLast?

/-- The punctuation characters tested by `transcribe_buffer`
(whispers2t.py line 408: `any(c in text for c in '.!?,;')`). -/
def has_terminal_punct (text : String) : Bool :=
  ['.', '!', '?', ',', ';'].any fun c => text.toList.contains c

/-- Python's `str.strip()`: remove leading and trailing whitespace. -/
def strip_chars (cs : List Char) : List Char :=
  ((cs.dropWhile Char.isWhitespace).reverse.dropWhile Char.isWhitespace).reverse

/-- Python's `str.strip()` on a `String`. -/
def strip_text (raw : String) : String :=
  String.mk (strip_chars raw.toList)

/-- The post-processing at the end of
`OptimizedAudioTranscriber.transcribe_buffer` (whispers2t.py lines 404-411):
strip the returned text, then discard it (return `""`) when it is shorter
than 3 characters and has none of the punctuation characters. -/
def post_process_text (raw : String) : String :=
  let text := strip_text raw
  if text.length < 3 ∧ has_terminal_punct text = false then "" else text

/-- `OptimizedAudioTranscriber._limit_buffer_size` (whispers2t.py lines
252-262): compute `max_chunks` and drop the oldest frames when the buffer
holds more than that many. -/
def limit_buffer_size (device_sample_rate : Nat) (audio_buffer : List Frame) :
    List Frame :=
  let max_chunks := device_sample_rate * MAX_BUFFER_SECONDS / CHUNK
  if max_chunks < audio_buffer.length then
    audio_buffer.drop (audio_buffer.length - max_chunks)
  else audio_buffer

/-- Observable outcome of one external ffmpeg invocation: the process ran
and returned 0 (`success`), the process ran and returned nonzero
(`failure`), or the invocation raised (tool unavailable). -/
inductive FfmpegOutcome
  | success
  | failure
  | unavailable
deriving DecidableEq

/-- The outcomes of the ffmpeg invocations a single
`_save_audio_buffer`/`_normalize_audio` pass can make: the advanced
(filtered) resample, the simple fallback resample, and loudnorm. -/
structure FfmpegEnv where
  advanced : FfmpegOutcome
  simple : FfmpegOutcome
  norm : FfmpegOutcome
deriving DecidableEq

/-- An on-disk audio file as handed to the transcription backend: its
sample rate, its frames (sample counts), and whether loudness
normalization was applied.  The audio content of a successful external
resample is opaque; the model tracks the declared rate and the frames the
file was built from. -/
structure AudioData where
  rate : Nat
  samples : List Frame
  normalized : Bool
deriving DecidableEq

/-- `OptimizedAudioTranscriber._normalize_audio` (whispers2t.py lines
153-182): on a zero exit code the normalized file is used; on a nonzero
exit code or an exception the original file is returned unchanged. -/
def normalize_audio (oc : FfmpegOutcome) (a : AudioData) : AudioData :=
  match oc with
  | .success => { a with normalized := true }
  | .failure => a
  | .unavailable => a

/-- `OptimizedAudioTranscriber._save_audio_buffer` (whispers2t.py lines
184-250): `none` when the buffer is empty; at a non-target device rate try
the filtered resample, fall back to the plain resample on a nonzero exit,
and on a second nonzero exit or any exception return the original-rate
file unchanged; at the target rate apply loudness normalization. -/
def save_audio_buffer (device_sample_rate : Nat) (audio_buffer : List Frame)
    (env : FfmpegEnv) : Option AudioData :=
  if audio_buffer = [] then none
  else if device_sample_rate ≠ TARGET_SAMPLE_RATE then
    match env.advanced with
    | .success => some ⟨TARGET_SAMPLE_RATE, audio_buffer, false⟩
    | .failure =>
      match env.simple with
      | .success => some ⟨TARGET_SAMPLE_RATE, audio_buffer, false⟩
      | .failure => some ⟨device_sample_rate, audio_buffer, false⟩
      | .unavailable => some ⟨device_sample_rate, audio_buffer, false⟩
    | .unavailable => some ⟨device_sample_rate, audio_buffer, false⟩
  else some (normalize_audio env.norm ⟨device_sample_rate, audio_buffer, false⟩)

/-- The mutable state of an `OptimizedAudioTranscriber`
(whispers2t.py lines 126-134).  `stream` and `transcription_thread` record
whether a live stream/thread object is held (`some ()`) or the field is
`None`. -/
structure TranscriberState where
  audio_buffer : List Frame
  is_recording : Bool
  stream : Option Unit
  transcription_thread : Option Unit
  last_transcription : String
  device_sample_rate : Nat
  transcription_history : TranscriptionHistory
deriving DecidableEq

/-- `OptimizedAudioTranscriber._audio_callback` (whispers2t.py lines
147-151): append the delivered frame to the buffer. -/
def audio_callback (s : TranscriberState) (frame : Frame) : TranscriberState :=
  { s with audio_buffer := s.audio_buffer ++ [frame] }

/-- `_save_audio_buffer` at the state level: the method writes the buffered
frames out to a file but never mutates `self.audio_buffer`, so the state
component is returned unchanged. -/
def save_audio_buffer_state (s : TranscriberState) (env : FfmpegEnv) :
    Option AudioData × TranscriberState :=
  (save_audio_buffer s.device_sample_rate s.audio_buffer env, s)

/-- `OptimizedAudioTranscriber.start_recording` (whispers2t.py lines
264-319): when already recording, log a warning and return without effect
(`false`); otherwise set the device rate, clear the audio buffer, open the
stream, mark recording, and start the transcription thread.
`transcription_history` and `last_transcription` are not touched. -/
def start_recording (s : TranscriberState) (device_rate : Nat) :
    TranscriberState × Bool :=
  if s.is_recording then (s, false)
  else
    ({ s with
        device_sample_rate := device_rate
        audio_buffer := []
        stream := some ()
        is_recording := true
        transcription_thread := some () }, true)

/-- `OptimizedAudioTranscriber.stop_recording` (whispers2t.py lines
321-340): a no-op when not recording; otherwise clear the flag, stop and
drop the stream, join and drop the transcription thread. -/
def stop_recording (s : TranscriberState) : TranscriberState :=
  if s.is_recording then
    { s with is_recording := false, stream := none, transcription_thread := none }
  else s

/-- Observable outcome of one call to the external transcription engine:
either it returned a (possibly empty) text, or it raised. -/
inductive EngineResult
  | text (raw : String)
  | engineError
deriving DecidableEq

/-- `OptimizedAudioTranscriber.transcribe_buffer` (whispers2t.py lines
370-415): save the buffer (empty buffer gives `""`), call the engine, and
post-process the returned text; any engine exception yields `""`. -/
def transcribe_buffer (s : TranscriberState) (env : FfmpegEnv)
    (er : EngineResult) : String :=
  match save_audio_buffer s.device_sample_rate s.audio_buffer env with
  | none => ""
  | some _ =>
    match er with
    | .engineError => ""
    | .text raw => post_process_text raw

/-- One iteration of `OptimizedAudioTranscriber._transcription_loop`
(whispers2t.py lines 342-368): limit the buffer, then transcribe only when
more than 5 frames are buffered; a new nonempty transcription is emitted,
recorded as `last_transcription`, and added to the history. -/
def transcription_tick (s : TranscriberState) (env : FfmpegEnv)
    (er : EngineResult) : TranscriberState × Option String :=
  let s1 := { s with
    audio_buffer := limit_buffer_size s.device_sample_rate s.audio_buffer }
  if 5 < s1.audio_buffer.length then
    let t := transcribe_buffer s1 env er
    if t ≠ "" ∧ t ≠ s1.last_transcription then
      ({ s1 with
          last_transcription := t
          transcription_history := s1.transcription_history.add (some t) }, some t)
    else (s1, none)
  else (s1, none)

/-- The chunk accumulation step of `AudioRecorder._record_audio`
(src/audio_recorder.py lines 219-237): `_save_chunk` returns without
emitting when the accumulated frame list is empty; otherwise the frames
are emitted as one chunk and the accumulator is reset to empty. -/
def emit_chunk (chunk_frames : List Frame) : Option (List Frame) × List Frame :=
  if chunk_frames = [] then (none, chunk_frames) else (some chunk_frames, [])

/-- One iteration of `TranscriptionService._process_chunks`
(src/transcription_service.py lines 77-120), restricted to the lifecycle of
the chunk file within the set of existing files: a missing or empty path is
skipped; when the engine call returns, the file is unlinked; when the
engine call raises, control jumps to the exception handler and the unlink
is never reached. -/
def process_chunk (files : List String) (chunk_file : String)
    (er : EngineResult) : List String :=
  if chunk_file = "" then files
  else if chunk_file ∈ files then
    match er with
    | .text _ => files.erase chunk_file
    | .engineError => files
  else files

/-- `_limit_buffer_size` only ever drops a prefix: the result is a suffix
of the buffer it was given. -/
theorem limit_buffer_size_suffix (r : Nat) (b : List Frame) :
    limit_buffer_size r b <:+ b := by
  show (if r * MAX_BUFFER_SECONDS / CHUNK < b.length
      then b.drop (b.length - r * MAX_BUFFER_SECONDS / CHUNK) else b) <:+ b
  split
  · exact List.drop_suffix _ _
  · exact List.suffix_refl _

/-- `_limit_buffer_size` retains exactly `min (length, max_chunks)` frames. -/
theorem limit_buffer_size_length (r : Nat) (b : List Frame) :
    (limit_buffer_size r b).length = min b.length (r * MAX_BUFFER_SECONDS / CHUNK) := by
  show (if r * MAX_BUFFER_SECONDS / CHUNK < b.length
      then b.drop (b.length - r * MAX_BUFFER_SECONDS / CHUNK) else b).length
      = min b.length (r * MAX_BUFFER_SECONDS / CHUNK)
  split
  · rename_i h
    rw [List.length_drop, min_eq_right (Nat.le_of_lt h)]
    exact Nat.sub_sub_self (Nat.le_of_lt h)
  · rename_i h
    rw [min_eq_left (Nat.le_of_not_lt h)]

/-- `_save_audio_buffer` returns `None` exactly when the buffer is empty. -/
theorem save_audio_buffer_none_iff (r : Nat) (b : List Frame) (env : FfmpegEnv) :
    save_audio_buffer r b env = none ↔ b = [] := by
  unfold save_audio_buffer
  by_cases hb : b = []
  · simp [hb]
  · rw [if_neg hb]
    by_cases hr : r ≠ TARGET_SAMPLE_RATE
    · rw [if_pos hr]
      cases env.advanced <;> cases env.simple <;> simp [hb]
    · rw [if_neg hr]
      simp [hb]

/-- Adding a text that already is the last stored entry leaves the history
unchanged (whispers2t.py line 46). -/
theorem add_last_eq_noop (g : TranscriptionHistory) (t : String)
    (hlast : g.history.getLast? = some t) :
    g.add (some t) = g := by
  have hne : g.history ≠ [] := by
    intro hnil
    rw [hnil] at hlast
    simp at hlast
  simp only [TranscriptionHistory.add]
  by_cases ht : t = ""
  · rw [if_pos ht]
  · have hc : ¬(g.history = [] ∨ g.history.getLast? ≠ some t) := by
      push_neg
      exact ⟨hne, hlast⟩
    rw [if_neg ht, if_neg hc]

/-- After a successful, nonempty `add`, the last stored entry is the added
text (assuming a positive `max_history`). -/
theorem add_some_getLast (h : TranscriptionHistory) (t : String) (ht : t ≠ "")
    (hmax : 0 < h.max_history) :
    (h.add (some t)).history.getLast? = some t := by
  simp only [TranscriptionHistory.add]
  rw [if_neg ht]
  by_cases hc : h.history = [] ∨ h.history.getLast? ≠ some t
  · rw [if_pos hc]
    show (if h.max_history < (h.history ++ [t]).length
        then (h.history ++ [t]).drop 1 else h.history ++ [t]).getLast? = some t
    by_cases hd : h.max_history < (h.history ++ [t]).length
    · rw [if_pos hd]
      have hlen : 1 ≤ h.history.length := by
        simp [List.length_append] at hd
        omega
      rw [List.drop_append_of_le_length hlen]
      exact List.getLast?_concat _
    · rw [if_neg hd]
      exact List.getLast?_concat _
  · rw [if_neg hc]
    push_neg at hc
    exact hc.2

/-- `add` never lets the history grow beyond `max_history` once it is
within the bound: one append adds one entry and one `pop(0)` removes one. -/
theorem add_length_le (h : TranscriptionHistory) (text : Option String)
    (hlen : h.history.length ≤ h.max_history) :
    (h.add text).history.length ≤ h.max_history := by
  match text with
  | none => exact hlen
  | some t =>
    simp only [TranscriptionHistory.add]
    by_cases ht : t = ""
    · rw [if_pos ht]
      exact hlen
    · rw [if_neg ht]
      by_cases hc : h.history = [] ∨ h.history.getLast? ≠ some t
      · rw [if_pos hc]
        show (if h.max_history < (h.history ++ [t]).length
            then (h.history ++ [t]).drop 1 else h.history ++ [t]).length ≤ h.max_history
        by_cases hd : h.max_history < (h.history ++ [t]).length
        · rw [if_pos hd]
          simp [List.length_drop, List.length_append] at hd ⊢
          omega
        · rw [if_neg hd]
          simp [List.length_append] at hd ⊢
          omega
      · rw [if_neg hc]
        exact hlen

/-- Claim C1: for every sequence of pushed frames, after
`_limit_buffer_size` the buffered duration (total samples over the sample
rate) is at most `MAX_BUFFER_SECONDS`, and the retained frames are exactly
the most recently pushed ones: a contiguous suffix of the pushed sequence,
of maximal length within the capacity, with the oldest frames evicted
first.  The hypothesis that every frame carries `CHUNK` samples is the
capture contract: the stream is opened with `frames_per_buffer=CHUNK`. -/
theorem c1_buffer_bound (rate : Nat) (buffer : List Frame) (hr : 0 < rate)
    (hu : ∀ f ∈ buffer, f = CHUNK) :
    ((limit_buffer_size rate buffer).sum : ℚ) / (rate : ℚ) ≤ (MAX_BUFFER_SECONDS : ℚ) ∧
    limit_buffer_size rate buffer <:+ buffer ∧
    (limit_buffer_size rate buffer).length
      = min buffer.length (rate * MAX_BUFFER_SECONDS / CHUNK) := by
  refine ⟨?_, limit_buffer_size_suffix rate buffer, limit_buffer_size_length rate buffer⟩
  have hall : ∀ f ∈ limit_buffer_size rate buffer, f = CHUNK :=
    fun f hf => hu f ((limit_buffer_size_suffix rate buffer).subset hf)
  have hsum : (limit_buffer_size rate buffer).sum
      = (limit_buffer_size rate buffer).length * CHUNK := by
    simpa [smul_eq_mul] using List.sum_eq_card_nsmul _ CHUNK hall
  have hlen : (limit_buffer_size rate buffer).length
      ≤ rate * MAX_BUFFER_SECONDS / CHUNK := by
    rw [limit_buffer_size_length]
    exact min_le_right _ _
  have hnat : (limit_buffer_size rate buffer).sum ≤ MAX_BUFFER_SECONDS * rate := by
    calc (limit_buffer_size rate buffer).sum
        = (limit_buffer_size rate buffer).length * CHUNK := hsum
      _ ≤ rate * MAX_BUFFER_SECONDS / CHUNK * CHUNK := Nat.mul_le_mul_right _ hlen
      _ ≤ rate * MAX_BUFFER_SECONDS := Nat.div_mul_le_self _ _
      _ = MAX_BUFFER_SECONDS * rate := Nat.mul_comm _ _
  have hrq : (0 : ℚ) < (rate : ℚ) := by exact_mod_cast hr
  rw [div_le_iff₀ hrq]
  exact_mod_cast hnat

theorem c1_buffer_bound_witness :
    0 < 16000 ∧ (∀ f ∈ ([4096, 4096] : List Frame), f = CHUNK) ∧
    (((limit_buffer_size 16000 [4096, 4096]).sum : ℚ) / ((16000 : Nat) : ℚ)
        ≤ (MAX_BUFFER_SECONDS : ℚ) ∧
      limit_buffer_size 16000 [4096, 4096] <:+ [4096, 4096] ∧
      (limit_buffer_size 16000 [4096, 4096]).length
        = min ([4096, 4096] : List Frame).length (16000 * MAX_BUFFER_SECONDS / CHUNK)) :=
  ⟨by decide, by decide, c1_buffer_bound 16000 [4096, 4096] (by decide) (by decide)⟩

/-- Claim C2, as stated, is false of `_save_audio_buffer`: saving does not
reset the buffer to empty, and an immediate second call returns the same
frames again rather than nothing.  Concretely, from a recording state
holding one frame, the buffer is still nonempty after the first call and
the second call still produces a chunk. -/
theorem c2_drain_counterexample :
    ¬ ((save_audio_buffer_state
          (⟨[4096], true, some (), some (), "", 16000, ⟨[], 5⟩⟩ : TranscriberState)
          ⟨.success, .success, .success⟩).2.audio_buffer = [] ∧
       (save_audio_buffer_state
          (save_audio_buffer_state
            (⟨[4096], true, some (), some (), "", 16000, ⟨[], 5⟩⟩ : TranscriberState)
            ⟨.success, .success, .success⟩).2
          ⟨.success, .success, .success⟩).1 = none) := by
  decide

/-- Claim C2, amended: in whispers2t, `_save_audio_buffer` is a
non-destructive snapshot — it produces a chunk exactly when the buffer is
nonempty and leaves `audio_buffer` unchanged, so an immediate second call
returns the same frames again.  In audio_recorder's chunk loop the
accumulated frames ARE reset after each save, so there a second immediate
save emits nothing, and the emitted chunk plus the remaining accumulator
hold exactly the accumulated frames (none duplicated, none lost). -/
theorem c2_drain_amended (s : TranscriberState) (env : FfmpegEnv)
    (frames : List Frame) :
    (save_audio_buffer_state s env).2 = s ∧
    ((save_audio_buffer_state s env).1 = none ↔ s.audio_buffer = []) ∧
    (emit_chunk (emit_chunk frames).2).1 = none ∧
    (emit_chunk frames).1.getD [] ++ (emit_chunk frames).2 = frames := by
  refine ⟨rfl, save_audio_buffer_none_iff _ _ _, ?_, ?_⟩
  · by_cases hf : frames = [] <;> simp [emit_chunk, hf]
  · by_cases hf : frames = [] <;> simp [emit_chunk, hf]

theorem c2_drain_amended_witness :
    (save_audio_buffer_state
        (⟨[4096], true, some (), some (), "", 16000, ⟨[], 5⟩⟩ : TranscriberState)
        ⟨.success, .success, .success⟩).2
      = (⟨[4096], true, some (), some (), "", 16000, ⟨[], 5⟩⟩ : TranscriberState) ∧
    ((save_audio_buffer_state
        (⟨[4096], true, some (), some (), "", 16000, ⟨[], 5⟩⟩ : TranscriberState)
        ⟨.success, .success, .success⟩).1 = none ↔
      (⟨[4096], true, some (), some (), "", 16000, ⟨[], 5⟩⟩ : TranscriberState).audio_buffer = []) ∧
    (emit_chunk (emit_chunk [4096, 4096]).2).1 = none ∧
    (emit_chunk [4096, 4096]).1.getD [] ++ (emit_chunk [4096, 4096]).2 = [4096, 4096] :=
  c2_drain_amended
    (⟨[4096], true, some (), some (), "", 16000, ⟨[], 5⟩⟩ : TranscriberState)
    ⟨.success, .success, .success⟩ [4096, 4096]

/-- Claim C3: a successful transcription's text is discarded as noise
(post-processing returns `""`, so no fragment is produced) exactly when the
stripped text is empty, or is shorter than 3 characters and contains none
of the punctuation characters; otherwise the stripped text is kept.  In
particular `"ok"` is discarded and `"ok."` is kept. -/
theorem c3_noise_suppression (raw : String) :
    (post_process_text raw = "" ↔
      strip_text raw = "" ∨
        ((strip_text raw).length < 3 ∧ has_terminal_punct (strip_text raw) = false)) ∧
    post_process_text "ok" = "" ∧ post_process_text "ok." = "ok." := by
  refine ⟨?_, by decide, by decide⟩
  show (if (strip_text raw).length < 3 ∧ has_terminal_punct (strip_text raw) = false
      then "" else strip_text raw) = "" ↔ _
  by_cases hc : (strip_text raw).length < 3 ∧ has_terminal_punct (strip_text raw) = false
  · rw [if_pos hc]
    exact ⟨fun _ => Or.inr hc, fun _ => rfl⟩
  · rw [if_neg hc]
    constructor
    · exact fun h => Or.inl h
    · rintro (h | h)
      · exact h
      · exact absurd h hc

theorem c3_noise_suppression_witness :
    (post_process_text "ok" = "" ↔
      strip_text "ok" = "" ∨
        ((strip_text "ok").length < 3 ∧ has_terminal_punct (strip_text "ok") = false)) ∧
    post_process_text "ok" = "" ∧ post_process_text "ok." = "ok." :=
  c3_noise_suppression "ok"

/-- Claim C4: `add` appends only when the text differs from the last
stored entry (adding the same text twice is a no-op the second time), one
`add` never pushes the history beyond `max_history` once within the bound,
and `get_prompt` returns the entry just added; concretely
`add "hello"; add "hello"` leaves length 1 while `add "hello"; add "world"`
leaves length 2 with `get_prompt` = `"world"`. -/
theorem c4_history_dedup (h : TranscriptionHistory) (t : String) (ht : t ≠ "")
    (hmax : 0 < h.max_history) (hlen : h.history.length ≤ h.max_history) :
    (h.add (some t)).add (some t) = h.add (some t) ∧
    (h.add (some t)).history.length ≤ h.max_history ∧
    (h.add (some t)).get_prompt = some t ∧
    (((⟨[], 5⟩ : TranscriptionHistory).add (some "hello")).add
        (some "hello")).history.length = 1 ∧
    (((⟨[], 5⟩ : TranscriptionHistory).add (some "hello")).add
        (some "world")).history.length = 2 ∧
    (((⟨[], 5⟩ : TranscriptionHistory).add (some "hello")).add
        (some "world")).get_prompt = some "world" := by
  have hlast := add_some_getLast h t ht hmax
  exact ⟨add_last_eq_noop (h.add (some t)) t hlast,
    add_length_le h (some t) hlen, hlast, by decide, by decide, by decide⟩

theorem c4_history_dedup_witness :
    ((⟨["a"], 5⟩ : TranscriptionHistory).add (some "b")).add (some "b")
        = (⟨["a"], 5⟩ : TranscriptionHistory).add (some "b") ∧
    (((⟨["a"], 5⟩ : TranscriptionHistory).add (some "b")).history.length
        ≤ (⟨["a"], 5⟩ : TranscriptionHistory).max_history) ∧
    ((⟨["a"], 5⟩ : TranscriptionHistory).add (some "b")).get_prompt = some "b" ∧
    (((⟨[], 5⟩ : TranscriptionHistory).add (some "hello")).add
        (some "hello")).history.length = 1 ∧
    (((⟨[], 5⟩ : TranscriptionHistory).add (some "hello")).add
        (some "world")).history.length = 2 ∧
    (((⟨[], 5⟩ : TranscriptionHistory).add (some "hello")).add
        (some "world")).get_prompt = some "world" :=
  c4_history_dedup ⟨["a"], 5⟩ "b" (by decide) (by decide) (by decide)

/-- Claim C5, as stated, is false of `start_recording`: starting from a
non-recording state whose history holds `"prev"`, the history is NOT
cleared by the restart — only the audio buffer is reset. -/
theorem c5_start_counterexample :
    ¬ ((start_recording
          (⟨[], false, none, none, "prev", 16000, ⟨["prev"], 5⟩⟩ : TranscriberState)
          48000).1.transcription_history.history = []) := by
  decide

/-- Claim C5, amended: `start_recording` is a failing no-op when already
recording; otherwise it clears the audio buffer, sets the device rate,
opens the stream and starts recording — but the context history and the
`last_transcription` counter are NOT reset: they persist across pipeline
restarts (the history is created once at construction and never cleared). -/
theorem c5_start_amended (s : TranscriberState) (device_rate : Nat) :
    (s.is_recording = true → start_recording s device_rate = (s, false)) ∧
    (s.is_recording = false →
      (start_recording s device_rate).2 = true ∧
      (start_recording s device_rate).1.audio_buffer = [] ∧
      (start_recording s device_rate).1.is_recording = true ∧
      (start_recording s device_rate).1.device_sample_rate = device_rate ∧
      (start_recording s device_rate).1.transcription_history
        = s.transcription_history ∧
      (start_recording s device_rate).1.last_transcription
        = s.last_transcription) := by
  cases hrec : s.is_recording <;> simp [start_recording, hrec]

theorem c5_start_amended_witness :
    ((⟨[4096], false, none, none, "prev", 16000, ⟨["prev"], 5⟩⟩ :
          TranscriberState).is_recording = true →
      start_recording
        (⟨[4096], false, none, none, "prev", 16000, ⟨["prev"], 5⟩⟩ : TranscriberState)
        48000
      = ((⟨[4096], false, none, none, "prev", 16000, ⟨["prev"], 5⟩⟩ :
          TranscriberState), false)) ∧
    ((⟨[4096], false, none, none, "prev", 16000, ⟨["prev"], 5⟩⟩ :
          TranscriberState).is_recording = false →
      (start_recording
          (⟨[4096], false, none, none, "prev", 16000, ⟨["prev"], 5⟩⟩ : TranscriberState)
          48000).2 = true ∧
      (start_recording
          (⟨[4096], false, none, none, "prev", 16000, ⟨["prev"], 5⟩⟩ : TranscriberState)
          48000).1.audio_buffer = [] ∧
      (start_recording
          (⟨[4096], false, none, none, "prev", 16000, ⟨["prev"], 5⟩⟩ : TranscriberState)
          48000).1.is_recording = true ∧
      (start_recording
          (⟨[4096], false, none, none, "prev", 16000, ⟨["prev"], 5⟩⟩ : TranscriberState)
          48000).1.device_sample_rate = 48000 ∧
      (start_recording
          (⟨[4096], false, none, none, "prev", 16000, ⟨["prev"], 5⟩⟩ : TranscriberState)
          48000).1.transcription_history
        = (⟨[4096], false, none, none, "prev", 16000, ⟨["prev"], 5⟩⟩ :
            TranscriberState).transcription_history ∧
      (start_recording
          (⟨[4096], false, none, none, "prev", 16000, ⟨["prev"], 5⟩⟩ : TranscriberState)
          48000).1.last_transcription
        = (⟨[4096], false, none, none, "prev", 16000, ⟨["prev"], 5⟩⟩ :
            TranscriberState).last_transcription) :=
  c5_start_amended
    (⟨[4096], false, none, none, "prev", 16000, ⟨["prev"], 5⟩⟩ : TranscriberState)
    48000

/-- Claim C6: conversion failure is never fatal to a chunk.  A nonempty
buffer always yields a chunk; at a non-target device rate, when the
conversion tool is unavailable, or when both the filtered and the fallback
resample fail, the original-rate file is forwarded unchanged rather than
dropped; at the target rate a failed loudness normalization forwards the
pre-normalization audio as-is, and `normalize_audio` is the identity on
every non-success outcome. -/
theorem c6_degraded_conversion (rate : Nat) (buffer : List Frame)
    (env : FfmpegEnv) (hb : buffer ≠ []) :
    save_audio_buffer rate buffer env ≠ none ∧
    (rate ≠ TARGET_SAMPLE_RATE → env.advanced = .unavailable →
      save_audio_buffer rate buffer env = some ⟨rate, buffer, false⟩) ∧
    (rate ≠ TARGET_SAMPLE_RATE → env.advanced = .failure → env.simple ≠ .success →
      save_audio_buffer rate buffer env = some ⟨rate, buffer, false⟩) ∧
    (rate = TARGET_SAMPLE_RATE → env.norm ≠ .success →
      save_audio_buffer rate buffer env = some ⟨rate, buffer, false⟩) ∧
    (∀ oc a, oc ≠ FfmpegOutcome.success → normalize_audio oc a = a) := by
  refine ⟨?_, ?_, ?_, ?_, ?_⟩
  · rw [Ne, save_audio_buffer_none_iff]
    exact hb
  · intro hr ha
    unfold save_audio_buffer
    rw [if_neg hb, if_pos hr, ha]
  · intro hr ha hs
    unfold save_audio_buffer
    rw [if_neg hb, if_pos hr, ha]
    cases h2 : env.simple
    · exact absurd h2 hs
    · rfl
    · rfl
  · intro hr hn
    unfold save_audio_buffer
    rw [if_neg hb, if_neg (not_not_intro hr)]
    cases h2 : env.norm
    · exact absurd h2 hn
    · subst hr
      rfl
    · subst hr
      rfl
  · intro oc a hoc
    cases oc
    · exact absurd rfl hoc
    · rfl
    · rfl

theorem c6_degraded_conversion_witness :
    save_audio_buffer 48000 [4096] ⟨.unavailable, .failure, .failure⟩ ≠ none ∧
    ((48000 : Nat) ≠ TARGET_SAMPLE_RATE →
      (⟨.unavailable, .failure, .failure⟩ : FfmpegEnv).advanced = .unavailable →
      save_audio_buffer 48000 [4096] ⟨.unavailable, .failure, .failure⟩
        = some ⟨48000, [4096], false⟩) ∧
    ((48000 : Nat) ≠ TARGET_SAMPLE_RATE →
      (⟨.unavailable, .failure, .failure⟩ : FfmpegEnv).advanced = .failure →
      (⟨.unavailable, .failure, .failure⟩ : FfmpegEnv).simple ≠ .success →
      save_audio_buffer 48000 [4096] ⟨.unavailable, .failure, .failure⟩
        = some ⟨48000, [4096], false⟩) ∧
    ((48000 : Nat) = TARGET_SAMPLE_RATE →
      (⟨.unavailable, .failure, .failure⟩ : FfmpegEnv).norm ≠ .success →
      save_audio_buffer 48000 [4096] ⟨.unavailable, .failure, .failure⟩
        = some ⟨48000, [4096], false⟩) ∧
    (∀ oc a, oc ≠ FfmpegOutcome.success → normalize_audio oc a = a) :=
  c6_degraded_conversion 48000 [4096] ⟨.unavailable, .failure, .failure⟩ (by decide)

/-- Claim C7, as stated, is false of `_process_chunks`: when the engine
call raises (the FAILED path), control jumps to the exception handler and
the unlink is never executed, so the chunk's backing file survives.
Concretely, a failing chunk `"chunk_a.mp3"` is still among the existing
files afterwards. -/
theorem c7_cleanup_counterexample :
    "chunk_a.mp3" ∈ process_chunk ["chunk_a.mp3"] "chunk_a.mp3"
        EngineResult.engineError ∧
    process_chunk ["chunk_a.mp3"] "chunk_a.mp3" EngineResult.engineError
      = ["chunk_a.mp3"] := by
  decide

/-- Claim C7, amended: on the COMPLETED paths (the engine returned, with or
without text) the chunk file is deleted immediately after processing; on
the FAILED path (the engine call raised) cleanup is skipped and the chunk
file is left behind. -/
theorem c7_cleanup_amended (files : List String) (f t : String) (hf : f ∈ files)
    (hne : f ≠ "") (hnd : files.Nodup) :
    process_chunk files f (.text t) = files.erase f ∧
    f ∉ process_chunk files f (.text t) ∧
    process_chunk files f .engineError = files := by
  refine ⟨?_, ?_, ?_⟩
  · unfold process_chunk
    rw [if_neg hne, if_pos hf]
  · unfold process_chunk
    rw [if_neg hne, if_pos hf]
    intro hmem
    exact (hnd.mem_erase_iff.mp hmem).1 rfl
  · unfold process_chunk
    rw [if_neg hne, if_pos hf]

theorem c7_cleanup_amended_witness :
    process_chunk ["chunk_a.mp3", "chunk_b.mp3"] "chunk_a.mp3" (.text "hello")
      = ["chunk_a.mp3", "chunk_b.mp3"].erase "chunk_a.mp3" ∧
    "chunk_a.mp3" ∉
      process_chunk ["chunk_a.mp3", "chunk_b.mp3"] "chunk_a.mp3" (.text "hello") ∧
    process_chunk ["chunk_a.mp3", "chunk_b.mp3"] "chunk_a.mp3" .engineError
      = ["chunk_a.mp3", "chunk_b.mp3"] :=
  c7_cleanup_amended ["chunk_a.mp3", "chunk_b.mp3"] "chunk_a.mp3" "hello"
    (by decide) (by decide) (by decide)

/-- Claim C8: on a processing tick with fewer than 5 buffered frames, the
tick is silently skipped: no transcription is emitted, and neither the
history nor the last-transcription record changes (only the buffer-limit
step has run). -/
theorem c8_starvation_skip (s : TranscriberState) (env : FfmpegEnv)
    (er : EngineResult) (h : s.audio_buffer.length < 5) :
    (transcription_tick s env er).2 = none ∧
    (transcription_tick s env er).1.transcription_history
      = s.transcription_history ∧
    (transcription_tick s env er).1.last_transcription = s.last_transcription := by
  have hlen : (limit_buffer_size s.device_sample_rate s.audio_buffer).length
      ≤ s.audio_buffer.length := by
    rw [limit_buffer_size_length]
    exact min_le_left _ _
  have hnot : ¬ 5 < (limit_buffer_size s.device_sample_rate s.audio_buffer).length := by
    omega
  simp [transcription_tick, hnot]

theorem c8_starvation_skip_witness :
    (transcription_tick
        (⟨[4096], true, some (), some (), "", 16000, ⟨[], 5⟩⟩ : TranscriberState)
        ⟨.success, .success, .success⟩ (.text "hello")).2 = none ∧
    (transcription_tick
        (⟨[4096], true, some (), some (), "", 16000, ⟨[], 5⟩⟩ : TranscriberState)
        ⟨.success, .success, .success⟩ (.text "hello")).1.transcription_history
      = (⟨[4096], true, some (), some (), "", 16000, ⟨[], 5⟩⟩ :
          TranscriberState).transcription_history ∧
    (transcription_tick
        (⟨[4096], true, some (), some (), "", 16000, ⟨[], 5⟩⟩ : TranscriberState)
        ⟨.success, .success, .success⟩ (.text "hello")).1.last_transcription
      = (⟨[4096], true, some (), some (), "", 16000, ⟨[], 5⟩⟩ :
          TranscriberState).last_transcription :=
  c8_starvation_skip
    (⟨[4096], true, some (), some (), "", 16000, ⟨[], 5⟩⟩ : TranscriberState)
    ⟨.success, .success, .success⟩ (.text "hello") (by decide)

/-- Claim C9: `stop_recording` is a no-op when not recording, calling it
twice leaves exactly the state the first call produced, the flag is down
afterwards, and stopping an active recording drops both the stream and the
transcription thread (no live capture remains). -/
theorem c9_stop_idempotent (s : TranscriberState) :
    stop_recording (stop_recording s) = stop_recording s ∧
    (s.is_recording = false → stop_recording s = s) ∧
    (stop_recording s).is_recording = false ∧
    (s.is_recording = true →
      (stop_recording s).stream = none ∧
      (stop_recording s).transcription_thread = none) := by
  cases hrec : s.is_recording <;> simp [stop_recording, hrec]

theorem c9_stop_idempotent_witness :
    stop_recording (stop_recording
        (⟨[4096], true, some (), some (), "", 16000, ⟨[], 5⟩⟩ : TranscriberState))
      = stop_recording
        (⟨[4096], true, some (), some (), "", 16000, ⟨[], 5⟩⟩ : TranscriberState) ∧
    ((⟨[4096], true, some (), some (), "", 16000, ⟨[], 5⟩⟩ :
          TranscriberState).is_recording = false →
      stop_recording
          (⟨[4096], true, some (), some (), "", 16000, ⟨[], 5⟩⟩ : TranscriberState)
        = (⟨[4096], true, some (), some (), "", 16000, ⟨[], 5⟩⟩ : TranscriberState)) ∧
    (stop_recording
        (⟨[4096], true, some (), some (), "", 16000, ⟨[], 5⟩⟩ :
          TranscriberState)).is_recording = false ∧
    ((⟨[4096], true, some (), some (), "", 16000, ⟨[], 5⟩⟩ :
          TranscriberState).is_recording = true →
      (stop_recording
          (⟨[4096], true, some (), some (), "", 16000, ⟨[], 5⟩⟩ :
            TranscriberState)).stream = none ∧
      (stop_recording
          (⟨[4096], true, some (), some (), "", 16000, ⟨[], 5⟩⟩ :
            TranscriberState)).transcription_thread = none) :=
  c9_stop_idempotent
    (⟨[4096], true, some (), some (), "", 16000, ⟨[], 5⟩⟩ : TranscriberState)

/-- Claim C10: `add` with `None` or the empty string leaves the history
completely unchanged — same state, same length, same prompt — so an empty
text can never become the priming string. -/
theorem c10_empty_add_noop (h : TranscriptionHistory) :
    h.add none = h ∧ h.add (some "") = h ∧
    (h.add none).history.length = h.history.length ∧
    (h.add (some "")).history.length = h.history.length ∧
    (h.add none).get_prompt = h.get_prompt ∧
    (h.add (some "")).get_prompt = h.get_prompt := by
  simp [TranscriptionHistory.add]
